import Mathlib

/-!
Shallow embedding of the radon mesh node (repository iiPythonx/radon).

Source files embedded:
  - radon/utils/encoding.py : base64 helpers, the PacketType enum,
    build_packet and extract_packet;
  - radon/comms.py          : NaCl box encryption and decryption;
  - radon/__main__.py       : RadonNode.process_packet, RadonNode.mesh_with
    and RadonNode.process_client.

Modelling conventions:
  - base64 encode and decode are mutually inverse on the values the program
    exchanges, so they are modelled as the identity on an abstract string
    domain of byte strings;
  - NaCl boxes are modelled symbolically: a ciphertext sealed under the box
    of two public keys can be opened exactly by a private key whose public
    key is one of the two, paired with the other, which is the observable
    behaviour of nacl.public.Box; undecryptable inputs raise (the library
    CryptoError, base64 and UTF-8 failures are folded into one outcome);
  - Python dicts are association lists with first-match lookup, in-place
    replacement and append-at-end insertion, matching insertion order;
  - a Python exception that escapes a function is an err field in the
    result; mutations performed before the raise are kept, as in Python.

A fact that governs the whole model: the PacketType enum in encoding.py
declares only AUTH and ACK, while __main__.py references the attributes
PacketType.ROUTE_REQ, ROUTE_ADD, ROUTE_DEL and ERROR in match value
patterns and build_packet calls.  In CPython a match value pattern
referencing a missing attribute raises AttributeError the moment its case
is tried, even when the subject would not have matched, and a failing
guard falls through into the next pattern.  Consequently every call of
process_packet raises AttributeError with no state change and nothing
sent, the handshake, merge and registration arms are dead code, no inbound
connection ever acquires a pk attribute, and the teardown fan-out crashes
at build_packet before its first send.  The definitions below embed that
staged behaviour; the dead arms are documented, not executed.
-/

namespace Radon

/-- Base64 encoding, modelled as the identity on the abstract byte-string
domain (encoding.py, encode). -/
def encode (data : String) : String := data

/-- Base64 decoding, inverse of encode (encoding.py, decode). -/
def decode (data : String) : String := data

/-- The packet type names the program mentions.  The enum in encoding.py
declares only AUTH and ACK (captured by declaredPacketType?, which is what
extract_packet consults); __main__.py additionally references ROUTE_REQ,
ROUTE_ADD, ROUTE_DEL and ERROR as attributes of PacketType, which do not
exist there, so in the staged program every such attribute access raises
AttributeError.  The four extra constructors exist in this model only to
name those references and the corresponding wire frames; no staged
execution ever produces them as values, and process_packet below raises
for every input exactly as the staged match does. -/
inductive PacketType where
  | AUTH
  | ACK
  | ROUTE_REQ
  | ROUTE_ADD
  | ROUTE_DEL
  | ERROR
deriving DecidableEq, Repr

/-- The members the PacketType enum in encoding.py actually declares
(AUTH = 1, ACK = 2).  Enum subscription PacketType[name] succeeds exactly
for these names and raises KeyError otherwise. -/
def declaredPacketType? (name : String) : Option PacketType :=
  if name = "AUTH" then some PacketType.AUTH
  else if name = "ACK" then some PacketType.ACK
  else none

/-- Python exceptions that the embedded code can raise past its caller. -/
inductive PyError where
  | attributeError
  | cryptoError
  | keyError
  | valueError
  | typeError
deriving DecidableEq, Repr

/-- JSON values, the result domain of json.loads. -/
inductive Json where
  | null
  | bool (b : Bool)
  | num (n : Int)
  | str (s : String)
  | arr (elems : List Json)
  | obj (fields : List (String × Json))

/-- Python dict lookup d[k] semantics on an association list: first match
wins; returns none when the key is absent. -/
def dictLookup {α : Type} : List (String × α) → String → Option α
  | [], _ => none
  | (k', v) :: d, k => if k = k' then some v else dictLookup d k

/-- Python dict assignment d[k] = v: replace the first binding of k in
place, or append a new binding at the end. -/
def dictSet {α : Type} : List (String × α) → String → α → List (String × α)
  | [], k, v => [(k, v)]
  | (k', v') :: d, k, v =>
      if k = k' then (k', v) :: d else (k', v') :: dictSet d k v

/-- Subscription j[k] on a decoded JSON value: KeyError when the key is
absent from an object, TypeError when the value is not an object
(extract_packet does decoded[\x22type\x22] and decoded[\x22data\x22]). -/
def jsonIndex (j : Json) (k : String) : Except PyError Json :=
  match j with
  | Json.obj fields =>
      match dictLookup fields k with
      | some v => Except.ok v
      | none => Except.error PyError.keyError
  | _ => Except.error PyError.typeError

/-- Outcome of extract_packet: the caller sees either None (the typed
failure), a decoded packet, or an uncaught exception. -/
inductive ExtractResult where
  | failure
  | ok (ptype : PacketType) (data : Json)
  | raised (e : PyError)

/-- encoding.py, extract_packet.  The argument is the outcome of
json.loads on the input text: none when json.loads raised JSONDecodeError
(the only exception the function catches, turned into the typed failure),
some j when parsing yielded the value j.  PacketType[name] is enum
subscription: it succeeds only for declared member names; an undeclared
name raises KeyError, a non-string hashable subscript raises KeyError, and
an unhashable subscript (array or object) raises TypeError. -/
def extract_packet (parsed : Option Json) : ExtractResult :=
  match parsed with
  | none => ExtractResult.failure
  | some decoded =>
    match jsonIndex decoded "type" with
    | Except.error e => ExtractResult.raised e
    | Except.ok tv =>
      match tv with
      | Json.str name =>
        match declaredPacketType? name with
        | none => ExtractResult.raised PyError.keyError
        | some pt =>
          match jsonIndex decoded "data" with
          | Except.error e => ExtractResult.raised e
          | Except.ok d => ExtractResult.ok pt d
      | Json.arr _ => ExtractResult.raised PyError.typeError
      | Json.obj _ => ExtractResult.raised PyError.typeError
      | _ => ExtractResult.raised PyError.keyError

/-- Derivation of a public key from a private key (nacl PrivateKey to its
public_key), an abstract injection on the byte-string domain. -/
def pubOf (sk : String) : String := sk ++ "/pub"

/-- Wire-level ciphertexts.  A sealed value records the two public keys of
the NaCl box it was sealed under and its plaintext; garbage stands for any
byte string that is not a valid sealed box. -/
inductive CipherText where
  | sealed (k1 k2 : String) (msg : String)
  | garbage (s : String)
deriving DecidableEq, Repr

/-- comms.py, encrypt: seal msg under Box(private, PublicKey(target)). -/
def encrypt (private_key : String) (target : String) (msg : String) : CipherText :=
  CipherText.sealed (pubOf private_key) target msg

/-- comms.py, decrypt: open a ciphertext with Box(private, PublicKey(sender)).
A NaCl box is symmetric in its two ends, so opening succeeds exactly when
the pair (own public key, sender) matches the sealing pair in either
order.  Anything else (garbage input, wrong box) raises; CryptoError,
base64 and UTF-8 decoding failures are folded into the single error. -/
def decrypt (private_key : String) (sender : String) (ct : CipherText) :
    Except Unit String :=
  match ct with
  | CipherText.sealed k1 k2 msg =>
      if (k1 = pubOf private_key ∧ k2 = sender) ∨
         (k1 = sender ∧ k2 = pubOf private_key) then Except.ok msg
      else Except.error ()
  | CipherText.garbage _ => Except.error ()

/-- Node operating mode (__main__.py, Mode). -/
inductive Mode where
  | NODE
  | ROUTER
deriving DecidableEq, Repr

/-- The routing table: encoded client key to list of encoded router keys. -/
abbrev Routes := List (String × List String)

/-- Typed packet payloads, the dict shapes the match statement in
process_packet destructures and the shapes build_packet emits. -/
inductive Payload where
  | empty
  | ackSuccess (success : Bool)
  | routes (routes : Routes)
  | routeInfo (client router : String)
  | authPublicKey (publicKey : String)
  | authChallenge (challenge : CipherText)
  | authEncryptedResponse (encryptedResponse : CipherText)
  | errorMessage (message : String)
deriving DecidableEq, Repr

/-- An outbound upstream connection held in self.routers; its pk attribute
is set at mesh time to the decoded directory key. -/
structure RouterConn where
  pk : String
deriving DecidableEq, Repr

/-- The mutable state of a RadonNode: mode, key pair, routing table, the
list of upstream router sockets, and the RADON_KNOWN_ROUTERS directory
(defined in the radon package init, not under src; modelled as the set of
encoded public keys it maps). -/
structure NodeState where
  mode : Mode
  private_key : String
  public_key : String
  routes : Routes
  routers : List RouterConn
  knownRouters : List String
deriving DecidableEq, Repr

/-- The per-connection attributes process_packet reads and writes through
getattr and setattr: pk (decoded claimed public key) and ch (the issued
challenge nonce).  getattr on an unset attribute raises AttributeError. -/
structure Conn where
  pk : Option String
  ch : Option String
deriving DecidableEq, Repr

/-- Destination of a send: the current connection, or the upstream router
at a given position of self.routers. -/
inductive Dest where
  | client
  | router (i : Nat)
deriving DecidableEq, Repr

/-- One packet handed to a send call, with its destination. -/
structure SentMsg where
  dest : Dest
  ptype : PacketType
  payload : Payload
deriving DecidableEq, Repr

/-- Result of one handler run: the state and connection after the partial
effects, the sends performed, and the exception that escaped, if any. -/
structure StepResult where
  state : NodeState
  conn : Conn
  sent : List SentMsg
  err : Option PyError
deriving DecidableEq, Repr

/-- The for-router-in-self.routers send loop: one packet to every element
of the routers list, in order. -/
def fanout (n : Nat) (t : PacketType) (p : Payload) : List SentMsg :=
  (List.range n).map fun i => ⟨Dest.router i, t, p⟩

/-- __main__.py, RadonNode.process_packet, as the staged program executes
it.  Only the pattern values of the first arm (PacketType.ACK, success True)
exist; the value pattern PacketType.ROUTE_REQ of the second arm raises
AttributeError whenever it is tried.  Hence every invocation raises
AttributeError with no state change, no connection attribute written and
nothing sent:
  - a packet not matching the first arm reaches the second pattern,
    whose attribute lookup raises (this covers every AUTH packet, so the
    handshake, merge and registration arms further down the source are
    dead code and no inbound connection ever acquires a pk attribute);
  - a matching ACK with no pk attribute raises in the guard getattr;
  - a matching ACK with a directory pk passes the guard and raises in the
    arm body, at build_packet(PacketType.ROUTE_REQ), before the send;
  - a matching ACK with a non-directory pk fails the guard and falls
    through into the crashing second pattern.
fresh is the os.urandom draw the challenge arm would use; it is never
reached. -/
def process_packet (st : NodeState) (c : Conn) (ptype : PacketType)
    (payload : Payload) (fresh : String) : StepResult :=
  match ptype, payload with
  | PacketType.ACK, Payload.ackSuccess true =>
    match c.pk with
    | none => ⟨st, c, [], some PyError.attributeError⟩
    | some p =>
      if st.knownRouters.contains (encode p) then
        ⟨st, c, [], some PyError.attributeError⟩
      else
        ⟨st, c, [], some PyError.attributeError⟩
  | _, _ => ⟨st, c, [], some PyError.attributeError⟩

/-- One iteration of the receive loop of process_client, as the loop body
observes it: a message for which extract_packet returned a decoded packet
(given here at the typed payload level, with the nonce oracle value the
handler would draw), a message for which it returned None, a message for
which it raised, or a transport-level WebSocketException from the
iterator. -/
inductive RecvItem where
  | packet (ptype : PacketType) (payload : Payload) (fresh : String)
  | badDecode
  | raiseExtract (e : PyError)
  | wsFault
deriving DecidableEq, Repr

/-- Result of a whole process_client run: final state and connection
attributes, all sends in order, whether client.close() was reached, and
the exception that escaped the coroutine, if any. -/
structure ClientResult where
  state : NodeState
  conn : Conn
  sent : List SentMsg
  closed : Bool
  err : Option PyError
deriving DecidableEq, Repr

/-- The except-WebSocketException branch of process_client, as staged.
With no pk attribute — the only state the staged program can produce,
since the handshake arms of process_packet are dead — it logs and reaches
client.close().  Granted a connection that does carry a pk attribute, in
router mode: self.routes[encoded_client] raises KeyError when the entry is
absent; list.remove raises ValueError when the local key is absent from it
and otherwise removes its first occurrence in place; then the fan-out loop
evaluates build_packet(PacketType.ROUTE_DEL), whose attribute lookup
raises AttributeError at the first iteration, so with a non-empty routers
list nothing is sent, the mutation persists, and client.close() is
skipped; with an empty routers list the loop body never runs and the close
is reached.  An exception inside the branch escapes before close. -/
def teardown_handler (st : NodeState) (c : Conn) : ClientResult :=
  match c.pk with
  | none => ⟨st, c, [], true, none⟩
  | some p =>
    if st.mode = Mode.ROUTER then
      match dictLookup st.routes (encode p) with
      | none => ⟨st, c, [], false, some PyError.keyError⟩
      | some l =>
        if st.public_key ∈ l then
          if st.routers.isEmpty then
            ⟨{ st with routes :=
                 dictSet st.routes (encode p) (l.erase st.public_key) },
             c, [], true, none⟩
          else
            ⟨{ st with routes :=
                 dictSet st.routes (encode p) (l.erase st.public_key) },
             c, [], false, some PyError.attributeError⟩
        else ⟨st, c, [], false, some PyError.valueError⟩
    else ⟨st, c, [], true, none⟩

/-- __main__.py, RadonNode.process_client: iterate the incoming messages;
a decoded packet is handed to process_packet (an exception it raises is
not a WebSocketException and escapes without closing); a None from
extract_packet breaks the loop and falls through to client.close() with no
retraction; an exception from extract_packet escapes without closing; a
WebSocketException enters the teardown handler; a cleanly exhausted
iterator falls through to client.close() with no retraction. -/
def process_client (st : NodeState) (c : Conn) : List RecvItem → ClientResult
  | [] => ⟨st, c, [], true, none⟩
  | RecvItem.badDecode :: _ => ⟨st, c, [], true, none⟩
  | RecvItem.raiseExtract e :: _ => ⟨st, c, [], false, some e⟩
  | RecvItem.wsFault :: _ => teardown_handler st c
  | RecvItem.packet t p f :: rest =>
    let r := process_packet st c t p f
    match r.err with
    | some e => ⟨r.state, r.conn, r.sent, false, some e⟩
    | none =>
      let k := process_client r.state r.conn rest
      ⟨k.state, k.conn, r.sent ++ k.sent, k.closed, k.err⟩

/-- __main__.py, RadonNode.mesh_with, up to the first send: skip when the
directory key is the own key; on a successful dial the socket, with its pk
attribute set to the decoded directory key, is appended to self.routers,
and only then is AUTH with the own public key sent on it.  The returned
send list is addressed to the position the socket was appended at. -/
def mesh_with_dialed (st : NodeState) (public_key : String) :
    NodeState × List SentMsg :=
  if public_key = st.public_key then (st, [])
  else
    ({ st with routers := st.routers ++ [⟨decode public_key⟩] },
     [⟨Dest.router st.routers.length, PacketType.AUTH,
       Payload.authPublicKey st.public_key⟩])

/-- The no-duplicates invariant of the routing table: every destination
entry is a duplicate-free router list. -/
def TableNodup (r : Routes) : Prop := ∀ kv ∈ r, (kv.2 : List String).Nodup

instance (r : Routes) : Decidable (TableNodup r) := by
  unfold TableNodup; infer_instance

/-! Concrete fixtures used by witnesses and failing-input evaluations.
Private keys are short byte strings; pubOf sk is the matching public key;
the directory keys in knownRouters are encoded public keys. -/

/-- A router with private key r, empty table, no upstream sockets, and one
directory entry for the foreign router key pkM. -/
def stC1 : NodeState := ⟨Mode.ROUTER, "r", "r/pub", [], [], ["pkM"]⟩

/-- A router with private key r, empty table and empty directory. -/
def stC2 : NodeState := ⟨Mode.ROUTER, "r", "r/pub", [], [], []⟩

/-- The claimed ideal handshake of peer private key x against router r: an
AUTH presenting the peer public key, then an AUTH carrying the correctly
re-sealed nonce.  In the staged program the very first item already raises
AttributeError. -/
def traceC2 : List RecvItem :=
  [RecvItem.packet PacketType.AUTH (Payload.authPublicKey "x/pub") "n0",
   RecvItem.packet PacketType.AUTH
     (Payload.authEncryptedResponse (encrypt "x" "r/pub" "n0")) "f"]

/-- A router holding one table entry, for claims about ROUTE_DEL and the
route merge. -/
def stC4 : NodeState := ⟨Mode.ROUTER, "r", "r/pub", [("A", ["B"])], [], ["m/pub"]⟩

/-- A router with one upstream router socket and its directory entry. -/
def stC6 : NodeState := ⟨Mode.ROUTER, "r", "r/pub", [], [⟨"m/pub"⟩], ["m/pub"]⟩

/-- The state C6 reasons about hypothetically: a table entry registered
for peer x and a connection carrying the pk attribute, although the staged
program can never produce either (the handshake arms are dead). -/
def stC6a : NodeState :=
  ⟨Mode.ROUTER, "r", "r/pub", [("x/pub", ["r/pub"])], [⟨"m/pub"⟩], ["m/pub"]⟩

/-- A router already routing for peer x, with a duplicate-free table. -/
def stC9 : NodeState := ⟨Mode.ROUTER, "r", "r/pub", [("x/pub", ["r/pub"])], [], []⟩

/-- A router with two upstream sockets, for the routers-list claims. -/
def stC10 : NodeState := ⟨Mode.ROUTER, "r", "r/pub", [], [⟨"m/pub"⟩, ⟨"q/pub"⟩], ["m/pub", "q/pub"]⟩

/-! Lemmas about the dict model and the collapsed handler. -/

theorem tableNodup_dictSet (d : Routes) (k : String) (v : List String)
    (hd : TableNodup d) (hv : v.Nodup) : TableNodup (dictSet d k v) := by
  induction d with
  | nil =>
    intro kv hkv
    simp only [dictSet, List.mem_singleton] at hkv
    subst hkv; exact hv
  | cons hd0 tl ih =>
    obtain ⟨k0, v0⟩ := hd0
    have htl : TableNodup tl := fun kv hkv => hd kv (List.mem_cons_of_mem _ hkv)
    by_cases hk : k = k0
    · intro kv hkv
      simp only [dictSet, if_pos hk, List.mem_cons] at hkv
      rcases hkv with h | h
      · subst h; exact hv
      · exact htl kv h
    · intro kv hkv
      simp only [dictSet, if_neg hk, List.mem_cons] at hkv
      rcases hkv with h | h
      · subst h; exact hd (k0, v0) (List.mem_cons_self _ _)
      · exact ih htl kv h

theorem dictLookup_mem {α : Type} (d : List (String × α)) (k : String) (v : α)
    (h : dictLookup d k = some v) : (k, v) ∈ d := by
  induction d with
  | nil => simp [dictLookup] at h
  | cons hd tl ih =>
    obtain ⟨k0, v0⟩ := hd
    simp only [dictLookup] at h
    by_cases hk : k = k0
    · rw [if_pos hk] at h
      obtain rfl := Option.some_injective _ h
      subst hk
      exact List.mem_cons_self _ _
    · rw [if_neg hk] at h
      exact List.mem_cons_of_mem _ (ih h)

theorem process_packet_eq (st : NodeState) (c : Conn) (t : PacketType)
    (p : Payload) (f : String) :
    process_packet st c t p f = ⟨st, c, [], some PyError.attributeError⟩ := by
  cases t <;> cases p <;> try rfl
  rename_i b
  cases b
  · rfl
  · cases hpk : c.pk with
    | none => simp [process_packet, hpk]
    | some q =>
      simp only [process_packet, hpk]
      split <;> rfl

theorem process_packet_routers (st : NodeState) (c : Conn) (t : PacketType)
    (p : Payload) (f : String) :
    (process_packet st c t p f).state.routers = st.routers := by
  rw [process_packet_eq]

theorem teardown_handler_routers (st : NodeState) (c : Conn) :
    (teardown_handler st c).state.routers = st.routers := by
  unfold teardown_handler
  (repeat' split) <;> rfl

theorem process_client_routers (st : NodeState) (c : Conn) (evts : List RecvItem) :
    (process_client st c evts).state.routers = st.routers := by
  induction evts generalizing st c with
  | nil => rfl
  | cons it rest ih =>
    cases it with
    | badDecode => rfl
    | raiseExtract e => rfl
    | wsFault => exact teardown_handler_routers st c
    | packet t p f =>
      show (match (process_packet st c t p f).err with
        | some e => _
        | none => _ : ClientResult).state.routers = st.routers
      cases herr : (process_packet st c t p f).err with
      | some e =>
        simp only [herr]
        exact process_packet_routers st c t p f
      | none =>
        simp only [herr]
        rw [ih]
        exact process_packet_routers st c t p f

/-! Claim theorems. -/

/-- C1: routing packets never mutate the routing table, whatever the
connection state.  In the staged program every invocation of
process_packet — in particular any ROUTE_REQ, ROUTE_ADD or ROUTE_DEL
delivery, on a connection that has not completed the challenge-response
(none ever can, since the handshake arms are dead) or whose peer is not a
recognized router — raises AttributeError at the missing-member value
pattern, leaving the state untouched and sending nothing.  A bare AUTH
with publicKey cannot even store a claimed key, so it is certainly not
sufficient for route traffic to mutate the table. -/
theorem c1_route_packets_never_mutate
    (st : NodeState) (c : Conn) (t : PacketType) (p : Payload) (f : String)
    (ht : t = PacketType.ROUTE_REQ ∨ t = PacketType.ROUTE_ADD ∨ t = PacketType.ROUTE_DEL) :
    (process_packet st c t p f).state = st ∧
    (process_packet st c t p f).sent = [] ∧
    (process_packet st c t p f).conn = c := by
  rcases ht with rfl | rfl | rfl <;>
    rw [process_packet_eq] <;> exact ⟨rfl, rfl, rfl⟩

/-- C1, witness: a ROUTE_ADD on the router stC1, delivered on a connection
that presented the directory key pkM, changes nothing. -/
theorem c1_witness :
    (process_packet stC1 ⟨some "pkM", some "n0"⟩ PacketType.ROUTE_ADD
        (Payload.routeInfo "victim" "evil") "f").state = stC1 ∧
    (process_packet stC1 ⟨some "pkM", some "n0"⟩ PacketType.ROUTE_ADD
        (Payload.routeInfo "victim" "evil") "f").sent = [] ∧
    (process_packet stC1 ⟨some "pkM", some "n0"⟩ PacketType.ROUTE_ADD
        (Payload.routeInfo "victim" "evil") "f").conn = ⟨some "pkM", some "n0"⟩ :=
  c1_route_packets_never_mutate stC1 ⟨some "pkM", some "n0"⟩ PacketType.ROUTE_ADD
    (Payload.routeInfo "victim" "evil") "f" (Or.inr (Or.inl rfl))

/-- C2, code-bug evaluation: the handshake arms are dead code.  The very
first packet of the claimed scenario, AUTH with publicKey on the
empty-table router stC2, raises AttributeError at the second match arm
before any AUTH arm is reached: no challenge is issued, no pk attribute is
stored, and running the full ideal trace — the claimed key followed by the
correctly re-sealed nonce — leaves the table empty, sends nothing (no ACK
with success true), and escapes process_client with the AttributeError.
The claim describes the intended handshake the source implements at
__main__.py lines 71 to 101, dead behind the missing enum members. -/
theorem c2_handshake_arms_dead :
    process_packet stC2 ⟨none, none⟩ PacketType.AUTH
        (Payload.authPublicKey "x/pub") "n0" =
      ⟨stC2, ⟨none, none⟩, [], some PyError.attributeError⟩ ∧
    (process_client stC2 ⟨none, none⟩ traceC2).state.routes = [] ∧
    (process_client stC2 ⟨none, none⟩ traceC2).sent = [] ∧
    (process_client stC2 ⟨none, none⟩ traceC2).err = some PyError.attributeError :=
  ⟨rfl, rfl, rfl, rfl⟩

/-- C3, code-bug evaluation: the rejection path is dead code.  An AUTH
carrying an encryptedResponse — whether a garbage byte string or a validly
sealed wrong answer — raises AttributeError at the missing-member pattern
before decrypt is ever called, even granted a connection already holding
pk and ch attributes.  The table is unchanged (trivially, as always), but
the claimed ACK with success false is never sent: no ACK of any kind can
be emitted by the staged program. -/
theorem c3_rejection_ack_never_sent :
    process_packet stC2 ⟨some "x/pub", some "n0"⟩ PacketType.AUTH
        (Payload.authEncryptedResponse (CipherText.garbage "junk")) "f" =
      ⟨stC2, ⟨some "x/pub", some "n0"⟩, [], some PyError.attributeError⟩ ∧
    process_packet stC2 ⟨some "x/pub", some "n0"⟩ PacketType.AUTH
        (Payload.authEncryptedResponse (encrypt "x" "r/pub" "WRONG")) "f" =
      ⟨stC2, ⟨some "x/pub", some "n0"⟩, [], some PyError.attributeError⟩ :=
  ⟨rfl, rfl⟩

/-- C4, code-bug evaluation: ROUTE_DEL is never processed.  The PacketType
enum has no ROUTE_DEL member, so extract_packet raises KeyError on the
very frame build_packet would emit; and even a hand-delivered ROUTE_DEL
raises AttributeError at the missing-member value pattern (there is no
ROUTE_DEL arm in the match at all), leaving routes A equal to B.  The
claim — and the teardown path of __main__.py itself, which propagates
ROUTE_DEL expecting receivers to process it — expects B to be removed. -/
theorem c4_route_del_is_ignored :
    process_packet stC4 ⟨some "m/pub", none⟩ PacketType.ROUTE_DEL
        (Payload.routeInfo "A" "B") "f" =
      ⟨stC4, ⟨some "m/pub", none⟩, [], some PyError.attributeError⟩ ∧
    dictLookup (process_packet stC4 ⟨some "m/pub", none⟩ PacketType.ROUTE_DEL
        (Payload.routeInfo "A" "B") "f").state.routes "A" = some ["B"] ∧
    extract_packet (some (Json.obj [("type", Json.str "ROUTE_DEL"),
        ("data", Json.obj [("client", Json.str "A"), ("router", Json.str "B")])])) =
      ExtractResult.raised PyError.keyError :=
  ⟨rfl, rfl, rfl⟩

/-- C5, code-bug evaluation: extract_packet raises KeyError past the
caller for every type name outside the two enum members encoding.py
declares — including ROUTE_REQ, ROUTE_ADD, ROUTE_DEL and ERROR, which the
spec closed type set requires the codec to recognize, and any unknown name
such as BOGUS, which the claim requires to yield the typed failure.  Only
malformed framing (a json.loads failure) yields the typed failure, and
only the declared names AUTH and ACK decode. -/
theorem c5_extract_packet_raises :
    extract_packet (some (Json.obj [("type", Json.str "ROUTE_REQ"), ("data", Json.obj [])])) =
      ExtractResult.raised PyError.keyError ∧
    extract_packet (some (Json.obj [("type", Json.str "ROUTE_ADD"), ("data", Json.obj [])])) =
      ExtractResult.raised PyError.keyError ∧
    extract_packet (some (Json.obj [("type", Json.str "ROUTE_DEL"), ("data", Json.obj [])])) =
      ExtractResult.raised PyError.keyError ∧
    extract_packet (some (Json.obj [("type", Json.str "ERROR"), ("data", Json.obj [])])) =
      ExtractResult.raised PyError.keyError ∧
    extract_packet (some (Json.obj [("type", Json.str "BOGUS"), ("data", Json.obj [])])) =
      ExtractResult.raised PyError.keyError ∧
    extract_packet none = ExtractResult.failure ∧
    extract_packet (some (Json.obj [("type", Json.str "AUTH"), ("data", Json.obj [])])) =
      ExtractResult.ok PacketType.AUTH (Json.obj []) ∧
    extract_packet (some (Json.obj [("type", Json.str "ACK"), ("data", Json.obj [])])) =
      ExtractResult.ok PacketType.ACK (Json.obj []) :=
  ⟨rfl, rfl, rfl, rfl, rfl, rfl, rfl, rfl⟩

/-- C6, code-bug evaluation: the retraction never happens.  First
conjunct group: in the staged program no inbound connection ever carries a
pk attribute (the handshake arms are dead), so a WebSocketException
teardown on the router stC6 just closes the transport: the table keeps its
routes, and no ROUTE_DEL is sent to the upstream router.  Second conjunct:
even granted the state the claim presupposes — stC6a with a registered
entry for peer x and a connection holding the pk attribute — the handler
removes the local key in place and then crashes with AttributeError at
build_packet(PacketType.ROUTE_DEL) before the first send (routers is
non-empty), sending nothing and skipping client.close().  Either way the
claimed remove-then-propagate-then-close behaviour cannot occur, though
the source implements it at __main__.py lines 155 to 165. -/
theorem c6_retraction_broken :
    (process_client stC6 ⟨none, none⟩ [RecvItem.wsFault]).state.routes = stC6.routes ∧
    (process_client stC6 ⟨none, none⟩ [RecvItem.wsFault]).sent = [] ∧
    (process_client stC6 ⟨none, none⟩ [RecvItem.wsFault]).closed = true ∧
    teardown_handler stC6a ⟨some "x/pub", some "n0"⟩ =
      ⟨⟨Mode.ROUTER, "r", "r/pub", [("x/pub", [])], [⟨"m/pub"⟩], ["m/pub"]⟩,
       ⟨some "x/pub", some "n0"⟩, [], false, some PyError.attributeError⟩ :=
  ⟨rfl, rfl, rfl, rfl⟩

/-- C7, code-bug evaluation: the full-table merge is dead code.  A
ROUTE_REQ frame cannot decode (KeyError on the missing enum member), and a
hand-delivered ROUTE_REQ push raises AttributeError at its own missing
value pattern, so the pushed destination A keeps its old entry B instead
of being replaced by C.  The merge at __main__.py lines 56 to 58 is
unreachable. -/
theorem c7_route_req_merge_dead :
    extract_packet (some (Json.obj [("type", Json.str "ROUTE_REQ"),
        ("data", Json.obj [("routes", Json.obj [])])])) =
      ExtractResult.raised PyError.keyError ∧
    process_packet stC4 ⟨some "m/pub", none⟩ PacketType.ROUTE_REQ
        (Payload.routes [("A", ["C"])]) "f" =
      ⟨stC4, ⟨some "m/pub", none⟩, [], some PyError.attributeError⟩ ∧
    dictLookup (process_packet stC4 ⟨some "m/pub", none⟩ PacketType.ROUTE_REQ
        (Payload.routes [("A", ["C"])]) "f").state.routes "A" = some ["B"] :=
  ⟨rfl, rfl, rfl⟩

/-- C8, code-bug evaluation: the idempotent-append arm is dead code.  A
ROUTE_ADD frame cannot decode (KeyError on the missing enum member), and
applying the same hand-delivered ROUTE_ADD for client A and router B twice
to the empty-table router stC1 raises AttributeError each time: routes A
remains absent, not the claimed one-element list B. -/
theorem c8_route_add_dead :
    extract_packet (some (Json.obj [("type", Json.str "ROUTE_ADD"),
        ("data", Json.obj [("client", Json.str "A"), ("router", Json.str "B")])])) =
      ExtractResult.raised PyError.keyError ∧
    dictLookup (process_packet
        (process_packet stC1 ⟨some "pkM", none⟩ PacketType.ROUTE_ADD
          (Payload.routeInfo "A" "B") "f").state
        (process_packet stC1 ⟨some "pkM", none⟩ PacketType.ROUTE_ADD
          (Payload.routeInfo "A" "B") "f").conn
        PacketType.ROUTE_ADD (Payload.routeInfo "A" "B") "f").state.routes "A" = none :=
  ⟨rfl, rfl⟩

/-- C9: the no-duplicates invariant holds of every reachable table and is
preserved by every operation.  Packet processing — in particular the
ROUTE_ADD, full-table merge and authentication-success registration arms
named by the claim, all dead code — leaves the table identical, and the
only table mutation the staged program retains, the list.remove of the
teardown branch inside the receive loop, erases one occurrence and so
keeps every entry duplicate-free. -/
theorem c9_nodup_invariant_preserved
    (st : NodeState) (c : Conn) (evts : List RecvItem)
    (t : PacketType) (p : Payload) (f : String)
    (hnd : TableNodup st.routes) :
    (process_packet st c t p f).state.routes = st.routes ∧
    TableNodup (process_client st c evts).state.routes := by
  refine ⟨by rw [process_packet_eq], ?_⟩
  cases evts with
  | nil => exact hnd
  | cons it rest =>
    cases it with
    | badDecode => exact hnd
    | raiseExtract e => exact hnd
    | packet t' p' f' =>
      show TableNodup (match (process_packet st c t' p' f').err with
        | some e => _
        | none => _ : ClientResult).state.routes
      rw [process_packet_eq]
      exact hnd
    | wsFault =>
      show TableNodup (teardown_handler st c).state.routes
      unfold teardown_handler
      cases hpk : c.pk with
      | none => exact hnd
      | some q =>
        by_cases hm : st.mode = Mode.ROUTER
        · simp only [hm, if_true]
          cases hlk : dictLookup st.routes (encode q) with
          | none => exact hnd
          | some l =>
            by_cases hmem : st.public_key ∈ l
            · have hl : l.Nodup := hnd (encode q, l) (dictLookup_mem _ _ _ hlk)
              by_cases hemp : st.routers.isEmpty
              · simp only [hmem, if_pos, hemp, if_true]
                exact tableNodup_dictSet _ _ _ hnd (hl.erase _)
              · simp only [hmem, if_pos, hemp, if_false]
                exact tableNodup_dictSet _ _ _ hnd (hl.erase _)
            · simp only [hmem, if_false]
              exact hnd
        · simp only [hm, if_false]
          exact hnd

/-- C9, witness: on the router stC9, whose table satisfies the invariant,
a ROUTE_ADD leaves the table identical and a teardown of the connection of
peer x (which erases the local key from its entry) keeps every entry
duplicate-free. -/
theorem c9_witness :
    (process_packet stC9 ⟨some "x/pub", some "n0"⟩ PacketType.ROUTE_ADD
        (Payload.routeInfo "A" "B") "f").state.routes = stC9.routes ∧
    TableNodup (process_client stC9 ⟨some "x/pub", some "n0"⟩
        [RecvItem.wsFault]).state.routes :=
  c9_nodup_invariant_preserved stC9 ⟨some "x/pub", some "n0"⟩ [RecvItem.wsFault]
    PacketType.ROUTE_ADD (Payload.routeInfo "A" "B") "f" (by decide)

/-- C10: the upstream-router list only ever grows.  A successful dial to a
foreign directory key appends the socket to routers, and the AUTH
handshake send returned by the dial step is addressed to that new last
position, so the append happens before the handshake; no packet handler
and no receive-loop run ever changes the routers field; and every
propagation fan-out addresses each position of the routers list, hence
every socket ever appended, whether or not its loop has since ended. -/
theorem c10_routers_only_grow :
    (∀ (st : NodeState) (k : String), k ≠ st.public_key →
      (mesh_with_dialed st k).1.routers = st.routers ++ [⟨decode k⟩] ∧
      (mesh_with_dialed st k).2 =
        [⟨Dest.router st.routers.length, PacketType.AUTH,
          Payload.authPublicKey st.public_key⟩]) ∧
    (∀ (st : NodeState) (c : Conn) (t : PacketType) (p : Payload) (f : String),
      (process_packet st c t p f).state.routers = st.routers) ∧
    (∀ (st : NodeState) (c : Conn) (evts : List RecvItem),
      (process_client st c evts).state.routers = st.routers) ∧
    (∀ (n : Nat) (t : PacketType) (p : Payload) (i : Nat), i < n →
      (⟨Dest.router i, t, p⟩ : SentMsg) ∈ fanout n t p) := by
  refine ⟨fun st k hk => ?_, process_packet_routers, process_client_routers,
    fun n t p i hi => ?_⟩
  · unfold mesh_with_dialed
    rw [if_neg hk]
    exact ⟨rfl, rfl⟩
  · simp only [fanout, List.mem_map, List.mem_range]
    exact ⟨i, hi, rfl⟩

/-- C10, witness: the conjuncts at concrete inputs on the two-router state
stC10. -/
theorem c10_witness :
    (mesh_with_dialed stC10 "z/pub").1.routers = stC10.routers ++ [⟨decode "z/pub"⟩] ∧
    (process_packet stC10 ⟨some "m/pub", some "n0"⟩ PacketType.ROUTE_ADD
        (Payload.routeInfo "A" "B") "f").state.routers = stC10.routers ∧
    (process_client stC10 ⟨some "m/pub", some "n0"⟩ [RecvItem.wsFault]).state.routers =
      stC10.routers ∧
    (⟨Dest.router 1, PacketType.ROUTE_DEL, Payload.routeInfo "A" "B"⟩ : SentMsg) ∈
      fanout stC10.routers.length PacketType.ROUTE_DEL (Payload.routeInfo "A" "B") := by
  have h := c10_routers_only_grow
  exact ⟨(h.1 stC10 "z/pub" (by decide)).1,
    h.2.1 stC10 ⟨some "m/pub", some "n0"⟩ PacketType.ROUTE_ADD (Payload.routeInfo "A" "B") "f",
    h.2.2.1 stC10 ⟨some "m/pub", some "n0"⟩ [RecvItem.wsFault],
    h.2.2.2 stC10.routers.length PacketType.ROUTE_DEL (Payload.routeInfo "A" "B") 1 (by decide)⟩

end Radon
